import Mathlib

/-!
Shallow embedding of the Google Slides tool layer (src/gslides/slides_tools.py).

The Python module builds batch-update request lists from high-level update
specs (`update_slide_content`, `copy_slide`), extracts readable content from a
polymorphic page-element tree (`get_slide_content`, `get_page`), and renders
multi-line confirmation strings.  Remote calls are modelled as an explicit
trace (`RemoteCall` list); the remote responses a function inspects are passed
in as arguments.  Python dictionary lookups `d.get(k)` become `Option` fields,
`d.get(k, default)` becomes `Option.getD`, and the one place the source can
raise an uncaught `IndexError` (`batch_result.get("replies", [{}])[0]` on an
explicitly empty reply list) is modelled by an `Option`-valued result.
-/

/-- Rendering of a possibly-missing string in a Python f-string: `None` prints
as the literal `None`, a present string prints verbatim. -/
def pyStr : Option String → String
  | none => "None"
  | some s => s

/-- Rendering of a possibly-missing integer in a Python f-string. -/
def pyStrInt : Option Int → String
  | none => "None"
  | some n => toString n

/-- Python `sep.join(lines)`: the pieces interleaved with the separator, empty
string on an empty list. -/
def pyJoin (sep : String) : List String → String
  | [] => ""
  | [x] => x
  | x :: y :: xs => x ++ sep ++ pyJoin sep (y :: xs)

/-- Python `s.strip()`: whitespace removed from both ends, modelled on the
underlying character list. -/
def pyStrip (s : String) : String :=
  String.mk (((s.data.dropWhile Char.isWhitespace).reverse.dropWhile
    Char.isWhitespace).reverse)

/-- One update spec as accepted by `update_slide_content` / `copy_slide`:
a Python dict whose fields are read with `.get`, so every field may be
missing.  `row`/`column` are integers when present, the rest strings. -/
structure UpdateSpec where
  element_id : Option String := none
  update_type : Option String := none
  text : Option String := none
  row : Option Int := none
  column : Option Int := none
  description : Option String := none
deriving DecidableEq

/-- `cellLocation` payload attached to table-cell text requests. -/
structure CellLocation where
  rowIndex : Option Int
  columnIndex : Option Int
deriving DecidableEq

/-- The primitive batch-update requests the module constructs. -/
inductive SlidesRequest where
  | deleteText (objectId : Option String) (cellLocation : Option CellLocation)
      (textRangeType : String)
  | insertText (objectId : Option String) (cellLocation : Option CellLocation)
      (insertionIndex : Nat) (text : String)
  | updateImageProperties (objectId : Option String) (fields : String)
      (description : String)
  | duplicateObject (objectId : String) (insertionIndex : Nat)
deriving DecidableEq

/-- A remote round trip issued by a tool, in issue order. -/
inductive RemoteCall where
  | getPresentation (presentationId : String)
  | getPage (presentationId : String) (pageObjectId : String)
  | batchUpdate (presentationId : String) (requests : List SlidesRequest)
deriving DecidableEq

/-- `duplicateObject` reply: `reply.get("duplicateObject", {}).get("objectId")`. -/
structure DuplicateObjectReply where
  objectId : Option String := none
deriving DecidableEq

/-- One entry of a batch-update response's `replies` list. -/
structure BatchReply where
  duplicateObject : Option DuplicateObjectReply := none
deriving DecidableEq

/-- A batch-update response; the `replies` key itself may be absent. -/
structure BatchResult where
  replies : Option (List BatchReply) := none
deriving DecidableEq

/-- One slide of a fetched presentation (`slide.get("objectId")`). -/
structure Slide where
  objectId : Option String := none
deriving DecidableEq

/-- A fetched presentation (`presentation.get("slides", [])`). -/
structure Presentation where
  slides : Option (List Slide) := none
deriving DecidableEq

/-- One iteration of the request-building loop of `update_slide_content`
(slides_tools.py lines 396-453): the accumulated `(requests, warnings)` pair
extended for one spec.  A `shape_text` spec appends a delete/insert pair, a
`table_cell` spec the same pair carrying a `cellLocation`, an
`image_description` spec one `updateImageProperties` request; any other
`update_type` appends nothing and logs a warning. -/
def updateContentStep (acc : List SlidesRequest × List String)
    (upd : UpdateSpec) : List SlidesRequest × List String :=
  if upd.update_type = some "shape_text" then
    (acc.1 ++ [SlidesRequest.deleteText upd.element_id none "ALL",
      SlidesRequest.insertText upd.element_id none 0 (upd.text.getD "")], acc.2)
  else if upd.update_type = some "table_cell" then
    (acc.1 ++ [SlidesRequest.deleteText upd.element_id
        (some ⟨upd.row, upd.column⟩) "ALL",
      SlidesRequest.insertText upd.element_id (some ⟨upd.row, upd.column⟩) 0
        (upd.text.getD "")], acc.2)
  else if upd.update_type = some "image_description" then
    (acc.1 ++ [SlidesRequest.updateImageProperties upd.element_id "description"
      (upd.description.getD "")], acc.2)
  else
    (acc.1, acc.2 ++ ["Unknown update_type \'" ++ pyStr upd.update_type
      ++ "\' for element " ++ pyStr upd.element_id])

/-- The whole request-building loop of `update_slide_content`: requests and
warnings accumulated left to right over the spec list. -/
def compileUpdates (updates : List UpdateSpec) :
    List SlidesRequest × List String :=
  updates.foldl updateContentStep ([], [])

/-- The batch requests `update_slide_content` builds for a spec list. -/
def buildRequests (updates : List UpdateSpec) : List SlidesRequest :=
  (compileUpdates updates).1

/-- The warnings `update_slide_content` logs for a spec list. -/
def buildWarnings (updates : List UpdateSpec) : List String :=
  (compileUpdates updates).2

/-- The block of primitive requests one spec contributes, in emission order
(specification-level restatement of one loop iteration, used to state that
the loop is their order-preserving concatenation). -/
def specRequests (upd : UpdateSpec) : List SlidesRequest :=
  if upd.update_type = some "shape_text" then
    [SlidesRequest.deleteText upd.element_id none "ALL",
     SlidesRequest.insertText upd.element_id none 0 (upd.text.getD "")]
  else if upd.update_type = some "table_cell" then
    [SlidesRequest.deleteText upd.element_id (some ⟨upd.row, upd.column⟩) "ALL",
     SlidesRequest.insertText upd.element_id (some ⟨upd.row, upd.column⟩) 0
       (upd.text.getD "")]
  else if upd.update_type = some "image_description" then
    [SlidesRequest.updateImageProperties upd.element_id "description"
      (upd.description.getD "")]
  else []

/-- The warnings one spec contributes: one for an unknown `update_type`,
none otherwise. -/
def specWarnings (upd : UpdateSpec) : List String :=
  if upd.update_type = some "shape_text" then []
  else if upd.update_type = some "table_cell" then []
  else if upd.update_type = some "image_description" then []
  else ["Unknown update_type \'" ++ pyStr upd.update_type ++ "\' for element "
    ++ pyStr upd.element_id]

/-- Whether a spec's `update_type` is one of the three recognized kinds. -/
def isKnownType (upd : UpdateSpec) : Bool :=
  upd.update_type == some "shape_text" || upd.update_type == some "table_cell"
    || upd.update_type == some "image_description"

/-- How many specs of a list carry the given `update_type`. -/
def countType (t : String) (updates : List UpdateSpec) : Nat :=
  updates.countP (fun u => u.update_type == some t)

/-- The per-spec line of the update summary rendered by
`update_slide_content` (lines 468-485). -/
def summaryLine (upd : UpdateSpec) : String :=
  if upd.update_type = some "shape_text" then
    "Shape (ID: " ++ pyStr upd.element_id ++ "): Text updated"
  else if upd.update_type = some "table_cell" then
    "Table (ID: " ++ pyStr upd.element_id ++ "), Cell (" ++ pyStrInt upd.row
      ++ ", " ++ pyStrInt upd.column ++ "): Text updated"
  else if upd.update_type = some "image_description" then
    "Image (ID: " ++ pyStr upd.element_id ++ "): Description updated"
  else
    "Element (ID: " ++ pyStr upd.element_id ++ "): Skipped (unknown type)"

/-- The summary-building loop of `update_slide_content`: one line appended
per spec, in input order. -/
def buildSummary (updates : List UpdateSpec) : List String :=
  updates.foldl (fun acc u => acc ++ [summaryLine u]) []

/-- The fixed part of the `update_slide_content` confirmation template
(lines 487-496), up to and including the `Update Summary:` heading. -/
def updateConfirmationHeader (email pid page : String)
    (nUpdates nRequests nReplies : Nat) : String :=
  "Slide Content Update Results for " ++ email ++ ":\n- Presentation ID: "
    ++ pid ++ "\n- Page ID: " ++ page
    ++ "\n- Updates Requested: " ++ toString nUpdates
    ++ "\n- Requests Sent: " ++ toString nRequests
    ++ "\n- Replies Received: " ++ toString nReplies
    ++ "\n\nUpdate Summary:\n"

/-- The confirmation template of `update_slide_content` (lines 487-496):
the header followed by the newline-joined summary lines. -/
def updateConfirmation (email pid page : String)
    (nUpdates nRequests nReplies : Nat) (summary : List String) : String :=
  updateConfirmationHeader email pid page nUpdates nRequests nReplies
    ++ pyJoin "\n" summary ++ "\n"

/-- Result of one `update_slide_content` invocation: the remote calls it
issued, the warnings it logged, and the returned string. -/
structure UpdateRun where
  calls : List RemoteCall
  warnings : List String
  message : String
deriving DecidableEq

/-- `update_slide_content` (lines 366-499).  The batch-update response the
remote would return is taken as the argument `resp`; the function builds the
request list, short-circuits when it is empty, otherwise issues a single
`batchUpdate` and renders the confirmation. -/
def update_slide_content (email pid page : String)
    (updates : List UpdateSpec) (resp : BatchResult) : UpdateRun :=
  let requests := buildRequests updates
  let warnings := buildWarnings updates
  if requests.isEmpty then
    ⟨[], warnings, "No valid updates were provided."⟩
  else
    let replies := resp.replies.getD []
    ⟨[RemoteCall.batchUpdate pid requests], warnings,
      updateConfirmation email pid page updates.length requests.length
        replies.length (buildSummary updates)⟩

/-- One fragment of a shape's or cell's text: either a `textRun` dict (whose
`content` may be missing) or some other fragment kind. -/
inductive TextElement where
  | textRun (content : Option String)
  | otherKind
deriving DecidableEq

/-- A `text` payload: its `textElements` key may be absent. -/
structure TextContent where
  textElements : Option (List TextElement) := none
deriving DecidableEq

/-- One table cell; its `text` key may be absent. -/
structure TableCell where
  text : Option TextContent := none
deriving DecidableEq

/-- One table row; its `tableCells` key may be absent. -/
structure TableRow where
  tableCells : Option (List TableCell) := none
deriving DecidableEq

/-- One page element, a tagged union over the payload key the source probes
for (`shape`, `table`, `image`, `video`, `line`, anything else). -/
inductive PageElement where
  | shape (objectId : Option String) (shapeType : Option String)
      (text : Option TextContent)
  | table (objectId : Option String) (rows : Option Nat) (columns : Option Nat)
      (tableRows : Option (List TableRow))
  | image (objectId : Option String) (description : Option String)
  | video (objectId : Option String) (url : Option String)
  | line (objectId : Option String) (lineType : Option String)
  | otherKind (objectId : Option String)
deriving DecidableEq

/-- The text-run concatenation loop of `get_slide_content`: the `content` of
every `textRun` fragment appended in order, other fragments skipped. -/
def runConcat (tes : List TextElement) : String :=
  tes.foldl (fun acc te =>
    match te with
    | TextElement.textRun c => acc ++ c.getD ""
    | TextElement.otherKind => acc) ""

/-- The `text_content` a shape yields (lines 312-317): empty when the shape
has no `text` key, otherwise the concatenation over `textElements`. -/
def shapeTextContent (text : Option TextContent) : String :=
  match text with
  | some tc => runConcat (tc.textElements.getD [])
  | none => ""

/-- The stripped text of one table cell
(`cell.get("text", {}).get("textElements", [])`, concatenated then stripped). -/
def cellText (cell : TableCell) : String :=
  pyStrip (runConcat ((match cell.text with
    | some tc => tc.textElements.getD []
    | none => []) : List TextElement))

/-- Python `str` of a list of strings, as an f-string renders `cell_row`
(each entry in single quotes; claims do not depend on repr escaping, which
this helper does not model). -/
def pyReprStrList (xs : List String) : String :=
  "[" ++ pyJoin ", " (xs.map (fun s => "\'" ++ s ++ "\'")) ++ "]"

/-- One rendered table row line (line 334). -/
def tableRowLine (idx : Nat) (row : TableRow) : String :=
  "    Row " ++ toString (idx + 1) ++ ": "
    ++ pyReprStrList ((row.tableCells.getD []).map cellText)

/-- The `table_content` list: one line per entry of `tableRows`. -/
def tableContent (rowsList : List TableRow) : List String :=
  rowsList.enum.map (fun p => tableRowLine p.1 p.2)

/-- The per-element content block of `get_slide_content` (lines 307-348). -/
def extractBlock (e : PageElement) : String :=
  match e with
  | PageElement.shape oid stype text =>
    let tc := shapeTextContent text
    "[Shape] ID: " ++ oid.getD "Unknown" ++ ", Type: " ++ stype.getD "Unknown"
      ++ "\n  Text: " ++ (if tc ≠ "" then pyStrip tc else "(empty)")
  | PageElement.table oid rows cols trows =>
    let content := tableContent (trows.getD [])
    "[Table] ID: " ++ oid.getD "Unknown" ++ ", Size: " ++ toString (rows.getD 0)
      ++ "x" ++ toString (cols.getD 0) ++ "\n"
      ++ (if content ≠ [] then pyJoin "\n" content else "    (empty table)")
  | PageElement.image oid desc =>
    let d := desc.getD ""
    "[Image] ID: " ++ oid.getD "Unknown" ++ "\n  Description: "
      ++ (if d = "" then "(no description)" else d)
  | PageElement.video oid url =>
    "[Video] ID: " ++ oid.getD "Unknown" ++ "\n  URL: " ++ url.getD "(unknown)"
  | PageElement.line oid lt =>
    "[Line] ID: " ++ oid.getD "Unknown" ++ ", Type: " ++ lt.getD "Unknown"
  | PageElement.otherKind oid =>
    "[Element] ID: " ++ oid.getD "Unknown" ++ ", Type: Unknown"

/-- The content-extraction loop of `get_slide_content`: one block appended
per page element. -/
def contentBlocks (es : List PageElement) : List String :=
  es.foldl (fun acc e => acc ++ [extractBlock e]) []

/-- The per-element line of `get_page` (lines 198-213): only `shape`,
`table` and `line` payloads are recognized; everything else — image and
video elements included — renders the generic placeholder. -/
def getPageElementLine (e : PageElement) : String :=
  match e with
  | PageElement.shape oid stype _ =>
    "  Shape: ID " ++ oid.getD "Unknown" ++ ", Type: " ++ stype.getD "Unknown"
  | PageElement.table oid rows cols _ =>
    "  Table: ID " ++ oid.getD "Unknown" ++ ", Size: "
      ++ toString (rows.getD 0) ++ "x" ++ toString (cols.getD 0)
  | PageElement.line oid lt =>
    "  Line: ID " ++ oid.getD "Unknown" ++ ", Type: " ++ lt.getD "Unknown"
  | PageElement.image oid _ =>
    "  Element: ID " ++ oid.getD "Unknown" ++ ", Type: Unknown"
  | PageElement.video oid _ =>
    "  Element: ID " ++ oid.getD "Unknown" ++ ", Type: Unknown"
  | PageElement.otherKind oid =>
    "  Element: ID " ++ oid.getD "Unknown" ++ ", Type: Unknown"

/-- One iteration of the update-request loop of `copy_slide` (lines 565-619):
identical emission to `updateContentStep`, except that an unknown
`update_type` is skipped silently — `copy_slide` has no warning branch. -/
def copyUpdateStep (requests : List SlidesRequest) (upd : UpdateSpec) :
    List SlidesRequest :=
  if upd.update_type = some "shape_text" then
    requests ++ [SlidesRequest.deleteText upd.element_id none "ALL",
      SlidesRequest.insertText upd.element_id none 0 (upd.text.getD "")]
  else if upd.update_type = some "table_cell" then
    requests ++ [SlidesRequest.deleteText upd.element_id
        (some ⟨upd.row, upd.column⟩) "ALL",
      SlidesRequest.insertText upd.element_id (some ⟨upd.row, upd.column⟩) 0
        (upd.text.getD "")]
  else if upd.update_type = some "image_description" then
    requests ++ [SlidesRequest.updateImageProperties upd.element_id
      "description" (upd.description.getD "")]
  else requests

/-- The update-request list `copy_slide` builds for the new slide. -/
def copyUpdateRequests (updates : List UpdateSpec) : List SlidesRequest :=
  updates.foldl copyUpdateStep []

/-- First entry of `batch_result.get("replies", [{}])`: `none` exactly when
the response carries an explicitly empty reply list, in which case the
source's `[0]` indexing raises. -/
def reply0 (resp : BatchResult) : Option BatchReply :=
  (resp.replies.getD [{}]).head?

/-- The success template of `copy_slide` (lines 629-636); `updateSummary` is
empty or a line starting with a newline. -/
def copySuccessMessage (email pid srcId newSlideId : String)
    (insertionIndex : Nat) (updateSummary : String) : String :=
  "Slide Copied Successfully for " ++ email ++ ":\n- Presentation ID: " ++ pid
    ++ "\n- Source Page ID: " ++ srcId
    ++ "\n- New Slide ID: " ++ newSlideId
    ++ "\n- Insertion Index: " ++ toString insertionIndex
    ++ "\n" ++ updateSummary
    ++ "\n- URL: https://docs.google.com/presentation/d/" ++ pid
    ++ "/edit#slide=id." ++ newSlideId ++ "\n"

/-- Result of one `copy_slide` invocation: the remote calls issued, the
warnings logged (the source logs none), and the returned string — `none`
when the uncaught `IndexError` of an empty reply list escapes. -/
structure CopyRun where
  calls : List RemoteCall
  warnings : List String
  result : Option String
deriving DecidableEq

/-- `copy_slide` (lines 505-638).  The fetched presentation and the two
batch-update responses are taken as arguments; the call trace records the
fetch, the duplication batch, and — only when update requests exist — the
second batch. -/
def copy_slide (email pid srcId : String) (updates : Option (List UpdateSpec))
    (pres : Presentation) (dupResp updResp : BatchResult) : CopyRun :=
  let slides := pres.slides.getD []
  let calls0 := [RemoteCall.getPresentation pid]
  match slides.findIdx? (fun s => s.objectId == some srcId) with
  | none =>
    ⟨calls0, [], some ("Source slide with object ID \'" ++ srcId
      ++ "\' not found.")⟩
  | some idx =>
    let insertionIndex := idx + 1
    let calls1 := calls0
      ++ [RemoteCall.batchUpdate pid
        [SlidesRequest.duplicateObject srcId insertionIndex]]
    match reply0 dupResp with
    | none => ⟨calls1, [], none⟩
    | some reply =>
      let newSlideId := ((reply.duplicateObject.getD {}).objectId).getD ""
      if newSlideId = "" then
        ⟨calls1, [], some ("Failed to duplicate slide " ++ srcId ++ ".")⟩
      else
        let us := updates.getD []
        if us.isEmpty then
          ⟨calls1, [],
            some (copySuccessMessage email pid srcId newSlideId
              insertionIndex "")⟩
        else
          let updateRequests := copyUpdateRequests us
          if updateRequests.isEmpty then
            ⟨calls1, [],
              some (copySuccessMessage email pid srcId newSlideId
                insertionIndex "")⟩
          else
            let updateSummary := "\n- Updates Applied: "
              ++ toString updateRequests.length ++ " request(s) sent, "
              ++ toString ((updResp.replies.getD []).length)
              ++ " replies received."
            ⟨calls1 ++ [RemoteCall.batchUpdate pid updateRequests], [],
              some (copySuccessMessage email pid srcId newSlideId
                insertionIndex updateSummary)⟩

theorem updateContentStep_eq (acc : List SlidesRequest × List String)
    (u : UpdateSpec) :
    updateContentStep acc u = (acc.1 ++ specRequests u, acc.2 ++ specWarnings u) := by
  unfold updateContentStep specRequests specWarnings
  split_ifs <;> simp

theorem foldl_updateContentStep (l : List UpdateSpec) :
    ∀ rs ws, l.foldl updateContentStep (rs, ws)
      = (rs ++ l.flatMap specRequests, ws ++ l.flatMap specWarnings) := by
  induction l with
  | nil => intro rs ws; simp [compileUpdates]
  | cons u t ih =>
    intro rs ws
    rw [List.foldl_cons, updateContentStep_eq, ih]
    simp [List.flatMap_cons]

theorem buildRequests_eq (updates : List UpdateSpec) :
    buildRequests updates = updates.flatMap specRequests := by
  unfold buildRequests compileUpdates
  rw [foldl_updateContentStep]
  simp

theorem buildWarnings_eq (updates : List UpdateSpec) :
    buildWarnings updates = updates.flatMap specWarnings := by
  unfold buildWarnings compileUpdates
  rw [foldl_updateContentStep]
  simp

theorem copyUpdateStep_eq (rs : List SlidesRequest) (u : UpdateSpec) :
    copyUpdateStep rs u = rs ++ specRequests u := by
  unfold copyUpdateStep specRequests
  split_ifs <;> simp

theorem foldl_copyUpdateStep (l : List UpdateSpec) :
    ∀ rs, l.foldl copyUpdateStep rs = rs ++ l.flatMap specRequests := by
  induction l with
  | nil => intro rs; simp
  | cons u t ih =>
    intro rs
    rw [List.foldl_cons, copyUpdateStep_eq, ih]
    simp [List.flatMap_cons]

theorem copyUpdateRequests_eq (updates : List UpdateSpec) :
    copyUpdateRequests updates = updates.flatMap specRequests := by
  unfold copyUpdateRequests
  rw [foldl_copyUpdateStep]
  simp

theorem isKnownType_false_iff (u : UpdateSpec) :
    isKnownType u = false ↔
      u.update_type ≠ some "shape_text" ∧ u.update_type ≠ some "table_cell"
        ∧ u.update_type ≠ some "image_description" := by
  unfold isKnownType
  simp [not_or, and_assoc]

theorem specRequests_of_unknown (u : UpdateSpec) (h : isKnownType u = false) :
    specRequests u = [] := by
  rw [isKnownType_false_iff] at h
  unfold specRequests
  split_ifs with h1 h2 h3
  · exact absurd h1 h.1
  · exact absurd h2 h.2.1
  · exact absurd h3 h.2.2
  · rfl

theorem specWarnings_of_unknown (u : UpdateSpec) (h : isKnownType u = false) :
    specWarnings u
      = ["Unknown update_type \'" ++ pyStr u.update_type ++ "\' for element "
          ++ pyStr u.element_id] := by
  rw [isKnownType_false_iff] at h
  unfold specWarnings
  split_ifs with h1 h2 h3
  · exact absurd h1 h.1
  · exact absurd h2 h.2.1
  · exact absurd h3 h.2.2
  · rfl

theorem buildRequests_of_all_unknown (updates : List UpdateSpec)
    (h : ∀ u ∈ updates, isKnownType u = false) :
    buildRequests updates = [] := by
  rw [buildRequests_eq]
  induction updates with
  | nil => rfl
  | cons u t ih =>
    rw [List.flatMap_cons, specRequests_of_unknown u (h u (List.mem_cons_self u t))]
    exact ih (fun a ha => h a (List.mem_cons_of_mem u ha))

/-- C1: for every list of update specs passed to `update_slide_content`, the
compiled batch request list has length exactly `2 * count(shape_text) +
2 * count(table_cell) + 1 * count(image_description)` (unknown update types
contributing nothing), it is the order-preserving concatenation of the
per-spec blocks, and each `shape_text`/`table_cell` block is an adjacent
`(deleteText, insertText)` pair in that order. -/
theorem updateContent_requests_length_order (updates : List UpdateSpec) :
    (buildRequests updates).length
        = 2 * countType "shape_text" updates + 2 * countType "table_cell" updates
          + countType "image_description" updates
    ∧ buildRequests updates = updates.flatMap specRequests
    ∧ ∀ u : UpdateSpec,
        (u.update_type = some "shape_text" →
          specRequests u
            = [SlidesRequest.deleteText u.element_id none "ALL",
               SlidesRequest.insertText u.element_id none 0 (u.text.getD "")])
        ∧ (u.update_type = some "table_cell" →
          specRequests u
            = [SlidesRequest.deleteText u.element_id
                 (some ⟨u.row, u.column⟩) "ALL",
               SlidesRequest.insertText u.element_id (some ⟨u.row, u.column⟩) 0
                 (u.text.getD "")])
        ∧ (u.update_type = some "image_description" →
          specRequests u
            = [SlidesRequest.updateImageProperties u.element_id "description"
                (u.description.getD "")])
        ∧ (isKnownType u = false → specRequests u = []) := by
  refine ⟨?_, buildRequests_eq updates, ?_⟩
  · rw [buildRequests_eq]
    induction updates with
    | nil => simp [countType]
    | cons u t ih =>
      rw [List.flatMap_cons, List.length_append, ih]
      unfold countType at *
      rw [List.countP_cons, List.countP_cons, List.countP_cons]
      by_cases h1 : u.update_type = some "shape_text"
      · simp [specRequests, h1]
        omega
      · by_cases h2 : u.update_type = some "table_cell"
        · simp [specRequests, h1, h2]
          omega
        · by_cases h3 : u.update_type = some "image_description"
          · simp [specRequests, h1, h2, h3]
            omega
          · simp [specRequests, h1, h2, h3]
  · intro u
    refine ⟨?_, ?_, ?_, specRequests_of_unknown u⟩
    · intro h1
      unfold specRequests
      rw [if_pos h1]
    · intro h2
      have h1 : u.update_type ≠ some "shape_text" := by
        rw [h2]; intro hc; exact absurd (Option.some.inj hc) (by decide)
      unfold specRequests
      rw [if_neg h1, if_pos h2]
    · intro h3
      have h1 : u.update_type ≠ some "shape_text" := by
        rw [h3]; intro hc; exact absurd (Option.some.inj hc) (by decide)
      have h2 : u.update_type ≠ some "table_cell" := by
        rw [h3]; intro hc; exact absurd (Option.some.inj hc) (by decide)
      unfold specRequests
      rw [if_neg h1, if_neg h2, if_pos h3]

/-- Witness for C1: a single `shape_text` spec compiles to exactly its
adjacent delete/insert pair, and an unknown spec contributes nothing. -/
theorem updateContent_requests_length_order_witness :
    buildRequests [⟨some "S1", some "shape_text", some "Hi", none, none, none⟩]
      = [SlidesRequest.deleteText (some "S1") none "ALL",
         SlidesRequest.insertText (some "S1") none 0 "Hi"]
    ∧ specRequests ⟨some "B1", some "bogus", none, none, none, none⟩ = [] := by
  constructor
  · have h2 := (updateContent_requests_length_order
      [⟨some "S1", some "shape_text", some "Hi", none, none, none⟩]).2.1
    have h3 := ((updateContent_requests_length_order
      [⟨some "S1", some "shape_text", some "Hi", none, none, none⟩]).2.2
      ⟨some "S1", some "shape_text", some "Hi", none, none, none⟩).1 rfl
    rw [h2]
    simpa using h3
  · exact ((updateContent_requests_length_order []).2.2
      ⟨some "B1", some "bogus", none, none, none, none⟩).2.2.2 (by decide)

/-- C2: if `update_slide_content` is called with an updates list that compiles
to zero primitive requests (empty list, or every spec of unknown
`update_type`), it returns the "no valid updates" message and issues no
remote call at all. -/
theorem updateContent_short_circuit (email pid page : String)
    (updates : List UpdateSpec) (resp : BatchResult)
    (h : updates = [] ∨ ∀ u ∈ updates, isKnownType u = false) :
    update_slide_content email pid page updates resp
      = ⟨[], buildWarnings updates, "No valid updates were provided."⟩ := by
  have hreq : buildRequests updates = [] := by
    rcases h with h | h
    · rw [h]; rfl
    · exact buildRequests_of_all_unknown updates h
  unfold update_slide_content
  simp [hreq]

/-- Witness for C2: one spec of `update_type` `bogus` short-circuits with the
"no valid updates" message, an empty call trace and the logged warning. -/
theorem updateContent_short_circuit_witness :
    update_slide_content "user" "P1" "G1"
        [⟨some "S1", some "bogus", none, none, none, none⟩] {}
      = ⟨[], ["Unknown update_type \'bogus\' for element S1"],
         "No valid updates were provided."⟩ := by
  have h := updateContent_short_circuit "user" "P1" "G1"
    [⟨some "S1", some "bogus", none, none, none, none⟩] {}
    (Or.inr (by decide))
  rw [h]
  decide

theorem pyJoin_empty_sep_cons (x : String) (xs : List String) :
    pyJoin "" (x :: xs) = x ++ pyJoin "" xs := by
  cases xs with
  | nil => rw [pyJoin, pyJoin, String.append_empty]
  | cons y t => rw [pyJoin, String.append_empty]

theorem runConcat_eq (tes : List TextElement) :
    runConcat tes = pyJoin "" (tes.filterMap (fun te =>
      match te with
      | TextElement.textRun c => some (c.getD "")
      | TextElement.otherKind => none)) := by
  suffices h : ∀ (l : List TextElement) (acc : String),
      l.foldl (fun acc te => match te with
        | TextElement.textRun c => acc ++ c.getD ""
        | TextElement.otherKind => acc) acc
        = acc ++ pyJoin "" (l.filterMap (fun te => match te with
          | TextElement.textRun c => some (c.getD "")
          | TextElement.otherKind => none)) by
    rw [runConcat, h, String.empty_append]
  intro l
  induction l with
  | nil => intro acc; rw [List.foldl_nil, List.filterMap_nil, pyJoin,
      String.append_empty]
  | cons te t ih =>
    intro acc
    cases te with
    | textRun c =>
      rw [List.foldl_cons, List.filterMap_cons]
      simp only []
      rw [ih, pyJoin_empty_sep_cons, String.append_assoc]
    | otherKind =>
      rw [List.foldl_cons, List.filterMap_cons]
      simp only []
      rw [ih]

/-- Counterexample to C3 as stated: a shape whose only text run is a single
space has a trimmed concatenation that is empty, yet the code renders an
empty `Text:` line, not the `(empty)` placeholder — the placeholder check is
on the untrimmed concatenation. -/
theorem shape_whitespace_counterexample :
    pyStrip (shapeTextContent
        (some ⟨some [TextElement.textRun (some " ")]⟩)) = ""
    ∧ extractBlock (PageElement.shape (some "S1") (some "TEXT_BOX")
        (some ⟨some [TextElement.textRun (some " ")]⟩))
      = "[Shape] ID: S1, Type: TEXT_BOX\n  Text: "
    ∧ extractBlock (PageElement.shape (some "S1") (some "TEXT_BOX")
        (some ⟨some [TextElement.textRun (some " ")]⟩))
      ≠ "[Shape] ID: S1, Type: TEXT_BOX\n  Text: (empty)" := by
  decide

/-- C3 amended: for every shape element, the rendered text is the
concatenation of every `textRun` fragment in document order (non-run
fragments ignored); the `(empty)` placeholder is rendered exactly when the
untrimmed concatenation is the empty string (so a shape with no fragments or
no `text` key gets `(empty)`, but a whitespace-only concatenation renders as
a stripped empty text instead of the placeholder); otherwise the stripped
concatenation is rendered.  A table with zero rows renders `(empty table)`. -/
theorem extract_shape_table_rendering (oid stype : Option String)
    (text : Option TextContent) (toid : Option String) (r c : Option Nat) :
    extractBlock (PageElement.shape oid stype text)
      = "[Shape] ID: " ++ oid.getD "Unknown" ++ ", Type: "
        ++ stype.getD "Unknown" ++ "\n  Text: "
        ++ (if shapeTextContent text = "" then "(empty)"
            else pyStrip (shapeTextContent text))
    ∧ (∀ tes : List TextElement,
        shapeTextContent (some ⟨some tes⟩)
          = pyJoin "" (tes.filterMap (fun te =>
              match te with
              | TextElement.textRun cnt => some (cnt.getD "")
              | TextElement.otherKind => none)))
    ∧ shapeTextContent none = ""
    ∧ extractBlock (PageElement.table toid r c (some []))
        = "[Table] ID: " ++ toid.getD "Unknown" ++ ", Size: "
          ++ toString (r.getD 0) ++ "x" ++ toString (c.getD 0)
          ++ "\n" ++ "    (empty table)"
    ∧ extractBlock (PageElement.table toid r c none)
        = "[Table] ID: " ++ toid.getD "Unknown" ++ ", Size: "
          ++ toString (r.getD 0) ++ "x" ++ toString (c.getD 0)
          ++ "\n" ++ "    (empty table)" := by
  refine ⟨?_, ?_, rfl, ?_, ?_⟩
  · by_cases h : shapeTextContent text = "" <;>
      simp [extractBlock, h]
  · intro tes
    rw [show shapeTextContent (some ⟨some tes⟩) = runConcat tes from rfl,
      runConcat_eq]
  · simp [extractBlock, tableContent]
  · simp [extractBlock, tableContent]

theorem foldl_append_singleton {α β : Type} (f : α → β) (l : List α) :
    ∀ acc : List β, l.foldl (fun a x => a ++ [f x]) acc = acc ++ l.map f := by
  induction l with
  | nil => intro acc; simp
  | cons x t ih =>
    intro acc
    rw [List.foldl_cons, ih, List.map_cons]
    simp

/-- C4: the content extraction of `get_slide_content` is total — for every
input list of page elements, whatever mix of variants, it produces exactly
one content block per element, so the block count equals the element count
and no element aborts the walk. -/
theorem extract_total (es : List PageElement) :
    contentBlocks es = es.map extractBlock
    ∧ (contentBlocks es).length = es.length := by
  have h : contentBlocks es = es.map extractBlock := by
    rw [contentBlocks, foldl_append_singleton extractBlock es]
    simp
  exact ⟨h, by rw [h, List.length_map]⟩

/-- C9: `get_page` recognizes only shape, table and line variants — an
element carrying an image or a video payload renders the generic
`Element: ID <id>, Type: Unknown` line, unlike `get_slide_content`, which
renders the image description and the video URL. -/
theorem getPage_generic_image_video (oid d u : Option String) :
    getPageElementLine (PageElement.image oid d)
        = "  Element: ID " ++ oid.getD "Unknown" ++ ", Type: Unknown"
    ∧ getPageElementLine (PageElement.video oid u)
        = "  Element: ID " ++ oid.getD "Unknown" ++ ", Type: Unknown"
    ∧ extractBlock (PageElement.image oid d)
        = "[Image] ID: " ++ oid.getD "Unknown" ++ "\n  Description: "
          ++ (if d.getD "" = "" then "(no description)" else d.getD "")
    ∧ extractBlock (PageElement.video oid u)
        = "[Video] ID: " ++ oid.getD "Unknown" ++ "\n  URL: "
          ++ u.getD "(unknown)" := by
  exact ⟨rfl, rfl, rfl, rfl⟩

theorem buildSummary_eq (updates : List UpdateSpec) :
    buildSummary updates = updates.map summaryLine := by
  rw [buildSummary, foldl_append_singleton summaryLine updates]
  simp

theorem summaryLine_of_unknown (u : UpdateSpec) (h : isKnownType u = false) :
    summaryLine u
      = "Element (ID: " ++ pyStr u.element_id ++ "): Skipped (unknown type)" := by
  rw [isKnownType_false_iff] at h
  unfold summaryLine
  rw [if_neg h.1, if_neg h.2.1, if_neg h.2.2]

theorem pyJoin_split (sep : String) (lines : List String) (l : String)
    (hl : l ∈ lines) : ∃ pre post, pyJoin sep lines = pre ++ l ++ post := by
  induction lines with
  | nil => cases hl
  | cons x xs ih =>
    rcases List.mem_cons.mp hl with h | h
    · subst h
      cases xs with
      | nil =>
        exact ⟨"", "", by
          rw [pyJoin, String.empty_append, String.append_empty]⟩
      | cons y t =>
        exact ⟨"", sep ++ pyJoin sep (y :: t), by
          rw [pyJoin, String.empty_append, String.append_assoc]⟩
    · cases xs with
      | nil => exact absurd h (List.not_mem_nil l)
      | cons y t =>
        obtain ⟨p, q, hpq⟩ := ih h
        exact ⟨x ++ sep ++ p, q, by
          rw [pyJoin, hpq]; simp [String.append_assoc]⟩

theorem specRequests_ne_nil_of_known (u : UpdateSpec)
    (h : isKnownType u = true) : specRequests u ≠ [] := by
  unfold specRequests
  split_ifs with h1 h2 h3
  · simp
  · simp
  · simp
  · rw [isKnownType] at h
    simp [h1, h2, h3] at h

theorem buildRequests_ne_nil (updates : List UpdateSpec)
    (h : ∃ u ∈ updates, isKnownType u = true) : buildRequests updates ≠ [] := by
  obtain ⟨u, hu, hk⟩ := h
  rw [buildRequests_eq]
  have hne := specRequests_ne_nil_of_known u hk
  induction updates with
  | nil => cases hu
  | cons x t ih =>
    rw [List.flatMap_cons]
    rcases List.mem_cons.mp hu with rfl | hmem
    · intro hn
      exact hne (List.append_eq_nil.mp hn).1
    · intro hn
      exact ih hmem (List.append_eq_nil.mp hn).2

/-- C8: for every updates list that is accepted (at least one spec of a known
`update_type`, so the batch is sent), the summary has exactly one line per
input spec, in input order, the returned message embeds those lines, and a
spec of unrecognized `update_type` puts the visible line
`Element (ID: <element_id>): Skipped (unknown type)` in the returned string. -/
theorem updateContent_summary_lines (email pid page : String)
    (updates : List UpdateSpec) (resp : BatchResult)
    (h : ∃ u ∈ updates, isKnownType u = true) :
    (buildSummary updates).length = updates.length
    ∧ (∀ i : Nat, (buildSummary updates)[i]? = (updates[i]?).map summaryLine)
    ∧ (update_slide_content email pid page updates resp).message
        = updateConfirmationHeader email pid page updates.length
            (buildRequests updates).length ((resp.replies.getD []).length)
          ++ pyJoin "\n" (buildSummary updates) ++ "\n"
    ∧ ∀ u ∈ updates, isKnownType u = false →
        ∃ pre post,
          (update_slide_content email pid page updates resp).message
            = pre ++ ("Element (ID: " ++ pyStr u.element_id
                ++ "): Skipped (unknown type)") ++ post := by
  have hne : buildRequests updates ≠ [] := buildRequests_ne_nil updates h
  have hfalse : (buildRequests updates).isEmpty = false := by
    rw [List.isEmpty_eq_false]; exact hne
  have hmsg : (update_slide_content email pid page updates resp).message
      = updateConfirmationHeader email pid page updates.length
          (buildRequests updates).length ((resp.replies.getD []).length)
        ++ pyJoin "\n" (buildSummary updates) ++ "\n" := by
    simp [update_slide_content, hfalse, updateConfirmation]
  refine ⟨?_, ?_, hmsg, ?_⟩
  · rw [buildSummary_eq, List.length_map]
  · intro i
    rw [buildSummary_eq, List.getElem?_map]
  · intro u hu hk
    have hmem : summaryLine u ∈ buildSummary updates := by
      rw [buildSummary_eq]
      exact List.mem_map.mpr ⟨u, hu, rfl⟩
    obtain ⟨p, q, hpq⟩ := pyJoin_split "\n" (buildSummary updates) _ hmem
    refine ⟨updateConfirmationHeader email pid page updates.length
        (buildRequests updates).length ((resp.replies.getD []).length) ++ p,
      q ++ "\n", ?_⟩
    rw [hmsg, hpq, summaryLine_of_unknown u hk]
    simp [String.append_assoc]

/-- Witness for C8: with a known `shape_text` spec followed by a `bogus`
spec, the summary has two lines and the returned string shows the skipped
element line. -/
theorem updateContent_summary_lines_witness :
    (buildSummary [⟨some "S1", some "shape_text", some "Hi", none, none, none⟩,
        ⟨some "B1", some "bogus", none, none, none, none⟩]).length = 2
    ∧ ∃ pre post,
        (update_slide_content "user" "P1" "G1"
            [⟨some "S1", some "shape_text", some "Hi", none, none, none⟩,
             ⟨some "B1", some "bogus", none, none, none, none⟩] {}).message
          = pre ++ "Element (ID: B1): Skipped (unknown type)" ++ post := by
  have h := updateContent_summary_lines "user" "P1" "G1"
    [⟨some "S1", some "shape_text", some "Hi", none, none, none⟩,
     ⟨some "B1", some "bogus", none, none, none, none⟩] {}
    ⟨⟨some "S1", some "shape_text", some "Hi", none, none, none⟩,
      List.mem_cons_self _ _, rfl⟩
  exact ⟨h.1, h.2.2.2 ⟨some "B1", some "bogus", none, none, none, none⟩
    (List.mem_cons_of_mem _ (List.mem_cons_self _ _)) rfl⟩

theorem findIdx_none_of_forall {α : Type} (p : α → Bool) :
    ∀ (l : List α), (∀ a ∈ l, p a = false) → ∀ i, List.findIdx? p l i = none
  | [], _, _ => rfl
  | x :: xs, h, i => by
    rw [List.findIdx?_cons, h x (List.mem_cons_self x xs)]
    simp only [Bool.false_eq_true, if_false]
    exact findIdx_none_of_forall p xs
      (fun a ha => h a (List.mem_cons_of_mem x ha)) (i + 1)

theorem findIdx_first {α : Type} (p : α → Bool) :
    ∀ (l : List α) (i : Nat) (hi : i < l.length),
      p (l.get ⟨i, hi⟩) = true →
      (∀ j (hj : j < i), p (l.get ⟨j, Nat.lt_trans hj hi⟩) = false) →
      ∀ s, List.findIdx? p l s = some (s + i)
  | [], i, hi, _, _, _ => absurd hi (by simp)
  | x :: xs, 0, _, hp, _, s => by
    rw [List.findIdx?_cons]
    rw [show p ((x :: xs).get ⟨0, by simp⟩) = p x from rfl] at hp
    rw [hp]
    simp
  | x :: xs, i + 1, hi, hp, hfirst, s => by
    rw [List.findIdx?_cons]
    have h0 : p x = false := hfirst 0 (Nat.succ_pos i)
    rw [h0]
    simp only [Bool.false_eq_true, if_false]
    have hi2 : i < xs.length := Nat.lt_of_succ_lt_succ hi
    have hp2 : p (xs.get ⟨i, hi2⟩) = true := hp
    have hfirst2 : ∀ j (hj : j < i),
        p (xs.get ⟨j, Nat.lt_trans hj hi2⟩) = false := by
      intro j hj
      exact hfirst (j + 1) (Nat.succ_lt_succ hj)
    rw [findIdx_first p xs i hi2 hp2 hfirst2 (s + 1)]
    congr 1
    omega

/-- C5: when `source_page_object_id` does not occur among the objectIds of
the fetched presentation's slides, `copy_slide` returns the not-found
message naming that id and issues no `batchUpdate` call at all. -/
theorem copySlide_not_found (email pid srcId : String)
    (updates : Option (List UpdateSpec)) (pres : Presentation)
    (dupResp updResp : BatchResult)
    (h : ∀ s ∈ pres.slides.getD [], s.objectId ≠ some srcId) :
    copy_slide email pid srcId updates pres dupResp updResp
      = ⟨[RemoteCall.getPresentation pid], [],
         some ("Source slide with object ID \'" ++ srcId ++ "\' not found.")⟩
    ∧ ∀ p reqs, RemoteCall.batchUpdate p reqs
        ∉ (copy_slide email pid srcId updates pres dupResp updResp).calls := by
  have hfind : (pres.slides.getD []).findIdx?
      (fun s => s.objectId == some srcId) = none :=
    findIdx_none_of_forall _ _
      (fun a ha => by rw [beq_eq_false_iff_ne]; exact h a ha) 0
  constructor
  · simp [copy_slide, hfind]
  · intro p reqs
    simp [copy_slide, hfind]

/-- Witness for C5: a one-slide presentation whose slide is `A`, asked to
copy `B`, answers with the not-found message after only the fetch. -/
theorem copySlide_not_found_witness :
    copy_slide "user" "P1" "B" none ⟨some [⟨some "A"⟩]⟩ {} {}
      = ⟨[RemoteCall.getPresentation "P1"], [],
         some "Source slide with object ID \'B\' not found."⟩ :=
  (copySlide_not_found "user" "P1" "B" none ⟨some [⟨some "A"⟩]⟩ {} {}
    (by decide)).1

/-- C6: whenever the source slide is found, the `insertionIndex` of the
submitted `duplicateObject` request is the zero-based position of the first
slide whose objectId equals `source_page_object_id`, plus one, whatever the
total number of slides. -/
theorem copySlide_insertion_index (email pid srcId : String)
    (updates : Option (List UpdateSpec)) (pres : Presentation)
    (dupResp updResp : BatchResult) (i : Nat)
    (hi : i < (pres.slides.getD []).length)
    (hmatch : ((pres.slides.getD []).get ⟨i, hi⟩).objectId = some srcId)
    (hfirst : ∀ j (hj : j < i),
      ((pres.slides.getD []).get ⟨j, Nat.lt_trans hj hi⟩).objectId
        ≠ some srcId) :
    (copy_slide email pid srcId updates pres dupResp updResp).calls[1]?
      = some (RemoteCall.batchUpdate pid
          [SlidesRequest.duplicateObject srcId (i + 1)]) := by
  have hfind : (pres.slides.getD []).findIdx?
      (fun s => s.objectId == some srcId) = some i := by
    have := findIdx_first (fun s => s.objectId == some srcId)
      (pres.slides.getD []) i hi (by rw [beq_iff_eq]; exact hmatch)
      (fun j hj => by rw [beq_eq_false_iff_ne]; exact hfirst j hj) 0
    simpa using this
  cases hrep : reply0 dupResp with
  | none => simp [copy_slide, hfind, hrep]
  | some reply =>
    simp only [copy_slide, hfind]
    rw [hrep]
    split_ifs <;> simp
    all_goals split_ifs <;> simp

/-- Witness for C6: source at index 1 of 3 slides gives insertion index 2. -/
theorem copySlide_insertion_index_witness :
    (copy_slide "user" "P1" "S2" none
        ⟨some [⟨some "S1"⟩, ⟨some "S2"⟩, ⟨some "S3"⟩]⟩ {} {}).calls[1]?
      = some (RemoteCall.batchUpdate "P1"
          [SlidesRequest.duplicateObject "S2" 2]) :=
  copySlide_insertion_index "user" "P1" "S2" none
    ⟨some [⟨some "S1"⟩, ⟨some "S2"⟩, ⟨some "S3"⟩]⟩ {} {} 1
    (by decide) (by decide) (by decide)

/-- C7: when the source slide is found but the first reply of the
duplication batch carries no new object id, `copy_slide` returns the
duplication-failure message and issues no further `batchUpdate`, whatever
the supplied updates list. -/
theorem copySlide_duplicate_failure (email pid srcId : String)
    (updates : Option (List UpdateSpec)) (pres : Presentation)
    (dupResp updResp : BatchResult) (i : Nat) (reply : BatchReply)
    (hfind : (pres.slides.getD []).findIdx?
      (fun s => s.objectId == some srcId) = some i)
    (hr : reply0 dupResp = some reply)
    (hid : (reply.duplicateObject.getD {}).objectId = none) :
    copy_slide email pid srcId updates pres dupResp updResp
      = ⟨[RemoteCall.getPresentation pid,
          RemoteCall.batchUpdate pid
            [SlidesRequest.duplicateObject srcId (i + 1)]], [],
         some ("Failed to duplicate slide " ++ srcId ++ ".")⟩ := by
  simp [copy_slide, hfind, hr, hid]

/-- Witness for C7: a response with no `duplicateObject.objectId` (the
defaulted `replies` entry) makes `copy_slide` stop after the duplication
batch with the failure message. -/
theorem copySlide_duplicate_failure_witness :
    copy_slide "user" "P1" "S1" none ⟨some [⟨some "S1"⟩]⟩ {} {}
      = ⟨[RemoteCall.getPresentation "P1",
          RemoteCall.batchUpdate "P1" [SlidesRequest.duplicateObject "S1" 1]],
         [], some "Failed to duplicate slide S1."⟩ :=
  copySlide_duplicate_failure "user" "P1" "S1" none ⟨some [⟨some "S1"⟩]⟩ {} {}
    0 {} (by decide) (by decide) rfl

/-- C10: when the updates list given to `copy_slide` is non-empty but every
spec has an unrecognized `update_type`, the duplication is still performed
and reported as success, no second `batchUpdate` is issued, no warning is
recorded (while `update_slide_content` would have warned on the same list),
and the returned message carries an empty update summary, so no
`Updates Applied` line. -/
theorem copySlide_unknown_updates_silent (email pid srcId : String)
    (us : List UpdateSpec) (pres : Presentation)
    (dupResp updResp : BatchResult) (i : Nat) (reply : BatchReply)
    (nsid : String)
    (hfind : (pres.slides.getD []).findIdx?
      (fun s => s.objectId == some srcId) = some i)
    (hr : reply0 dupResp = some reply)
    (hid : (reply.duplicateObject.getD {}).objectId = some nsid)
    (hnsid : nsid ≠ "")
    (hus : us ≠ [])
    (hunk : ∀ u ∈ us, isKnownType u = false) :
    copy_slide email pid srcId (some us) pres dupResp updResp
      = ⟨[RemoteCall.getPresentation pid,
          RemoteCall.batchUpdate pid
            [SlidesRequest.duplicateObject srcId (i + 1)]], [],
         some (copySuccessMessage email pid srcId nsid (i + 1) "")⟩
    ∧ buildWarnings us ≠ [] := by
  have hreq : copyUpdateRequests us = [] := by
    rw [copyUpdateRequests_eq, ← buildRequests_eq]
    exact buildRequests_of_all_unknown us hunk
  have husF : us.isEmpty = false := by
    rw [List.isEmpty_eq_false]; exact hus
  constructor
  · simp [copy_slide, hfind, hr, hid, hnsid, husF, hreq]
  · rw [buildWarnings_eq]
    obtain ⟨u, t, rfl⟩ := List.exists_cons_of_ne_nil hus
    rw [List.flatMap_cons,
      specWarnings_of_unknown u (hunk u (List.mem_cons_self u t))]
    simp

/-- Witness for C10: one `bogus` spec after a successful duplication leaves
the trace at exactly two calls and an empty update summary, while the
`update_slide_content` compiler would warn on the same list. -/
theorem copySlide_unknown_updates_silent_witness :
    copy_slide "user" "P1" "S1"
        (some [⟨some "B1", some "bogus", none, none, none, none⟩])
        ⟨some [⟨some "S1"⟩]⟩ ⟨some [⟨some ⟨some "NEW"⟩⟩]⟩ {}
      = ⟨[RemoteCall.getPresentation "P1",
          RemoteCall.batchUpdate "P1" [SlidesRequest.duplicateObject "S1" 1]],
         [], some (copySuccessMessage "user" "P1" "S1" "NEW" 1 "")⟩
    ∧ buildWarnings [⟨some "B1", some "bogus", none, none, none, none⟩]
        ≠ [] :=
  copySlide_unknown_updates_silent "user" "P1" "S1"
    [⟨some "B1", some "bogus", none, none, none, none⟩]
    ⟨some [⟨some "S1"⟩]⟩ ⟨some [⟨some ⟨some "NEW"⟩⟩]⟩ {} 0
    ⟨some ⟨some "NEW"⟩⟩ "NEW" (by decide) (by decide) rfl (by decide)
    (by decide) (by decide)
